import Mathlib

/-!
Verification of the alert/notification subsystem of the hfFrontend repository
(AlertProvider in AlertContext.tsx). The React component state
(useState hooks for alerts, hasMore, page, unreadAlerts) is embedded as a
record, and each operation (loadMore, readAlerts, the push subscription
handler, the isOpen effect, handleFriendRequest) as a pure state transformer.
Network calls are modelled by passing the settled outcome of the fetch as an
explicit argument; functional React state updates (setX (prev => ...)) read
the state at mutation time, which is exactly how the transformers below
consume their state argument.
-/

/-- An alert record as consumed by AlertProvider: server-assigned id, read
flag, optional processed-action label, and opaque payload fields collapsed
into one string. -/
structure Alert where
  id : Nat
  isRead : Bool
  processedAction : Option String
  payload : String
deriving Repr, DecidableEq

/-- The AlertProvider component state relevant to the feed: the alerts list,
the hasMore flag, the zero-based page cursor, and the unreadAlerts id list
(the useState hooks at lines 31-36 of AlertContext.tsx). -/
structure FeedState where
  alerts : List Alert
  hasMore : Bool
  page : Nat
  unreadAlerts : List Nat
deriving Repr, DecidableEq

/-- Body of a successful /api/v1/alerts fetch: resultCode and data.content. -/
structure AlertsResponse where
  resultCode : String
  content : List Alert
deriving Repr, DecidableEq

/-- Outcome of a REST call whose handler only inspects response.ok:
none models a network/parse error (the catch branch), some b models a
settled response with response.ok = b. -/
abbrev ReqOutcome := Option Bool

/-- The durable-alert subscription handler (AlertContext.tsx lines 126-134):
setAlerts(prev => [newAlert, ...prev]). The decoded alert is prepended
exactly as decoded; no other field of the component state is touched. -/
def recordIncoming (newAlert : Alert) (s : FeedState) : FeedState :=
  { s with alerts := newAlert :: s.alerts }

/-- loadMore (AlertContext.tsx lines 48-67). The fetch is issued
unconditionally; on a response with resultCode "200" the handler sets
hasMore to false when fewer than 10 items returned (and otherwise leaves
it alone), appends data.data.content, and increments page. A thrown error
(none) or a non-200 resultCode leaves the state unchanged. -/
def loadMore (response : Option AlertsResponse) (s : FeedState) : FeedState :=
  match response with
  | none => s
  | some data =>
    if data.resultCode = "200" then
      let newAlerts := data.content
      let s1 := if newAlerts.length < 10 then { s with hasMore := false } else s
      { s1 with alerts := s1.alerts ++ newAlerts, page := s1.page + 1 }
    else s

/-- Whether a call to loadMore issues a network request: the fetch at line
50 is the first statement of the function body and is not guarded by any
condition, so a request is issued from every state. -/
def loadMoreIssuesRequest (_s : FeedState) : Bool := true

/-- The per-entry update inside readAlerts on success (lines 84-88):
alertIds.includes(alert.id) ? \x7b ...alert, isRead: true \x7d : alert. -/
def applyReadStateToAlert (alertIds : List Nat) (alert : Alert) : Alert :=
  if alertIds.contains alert.id then { alert with isRead := true } else alert

/-- readAlerts (AlertContext.tsx lines 69-94): PATCH the ids; only when
response.ok does it map isRead := true over matching entries and filter the
acknowledged ids out of unreadAlerts; a non-ok response or a thrown error
leaves the state untouched. -/
def readAlerts (alertIds : List Nat) (outcome : ReqOutcome) (s : FeedState) :
    FeedState :=
  match outcome with
  | none => s
  | some false => s
  | some true =>
    { s with
      alerts := s.alerts.map (applyReadStateToAlert alertIds),
      unreadAlerts := s.unreadAlerts.filter (fun id => !alertIds.contains id) }

/-- Friend-request action parameter of handleFriendRequest. -/
inductive FriendAction where
  | accept
  | reject
deriving Repr, DecidableEq

/-- The localized label written into processedAction on success (line 196):
action === 'accept' ? '수락 완료' : '거절 완료'. -/
def actionLabel : FriendAction → String
  | .accept => "수락 완료"
  | .reject => "거절 완료"

/-- The friendRequestProcessed CustomEvent detail (lines 202-204). -/
structure FriendRequestProcessedEvent where
  requestId : Nat
  action : FriendAction
deriving Repr, DecidableEq

/-- handleFriendRequest (AlertContext.tsx lines 180-210): POST the action;
when response.ok, map over alerts overwriting processedAction with the
localized label on the entry whose id equals alertId, then dispatch one
friendRequestProcessed event carrying \x7brequestId, action\x7d. On a non-ok
response or a thrown error nothing is mutated and no event is dispatched.
Returns the new state together with the list of dispatched events. -/
def handleFriendRequest (requestId alertId : Nat) (action : FriendAction)
    (outcome : ReqOutcome) (s : FeedState) :
    FeedState × List FriendRequestProcessedEvent :=
  match outcome with
  | none => (s, [])
  | some false => (s, [])
  | some true =>
    ({ s with alerts := s.alerts.map (fun alert =>
        if alert.id = alertId then
          { alert with processedAction := some (actionLabel action) }
        else alert) },
     [{ requestId := requestId, action := action }])

/-- Ids of the unread alerts computed from the list (lines 161-163 and
169-171): alerts.filter(a => not a.isRead).map(a => a.id). -/
def unreadIds (alerts : List Alert) : List Nat :=
  (alerts.filter (fun a => !a.isRead)).map (fun a => a.id)

/-- Body of the useEffect on [isOpen] (AlertContext.tsx lines 167-177):
when it runs with isOpen false and a nonempty alerts list, it computes the
unread ids and, when that list is nonempty, invokes readAlerts on it.
Returns the argument of the readAlerts invocation, or none when readAlerts
is not invoked. -/
def isOpenEffectCall (isOpen : Bool) (alerts : List Alert) :
    Option (List Nat) :=
  if !isOpen && alerts.length > 0 then
    let unreadAlertIds := unreadIds alerts
    if unreadAlertIds.length > 0 then some unreadAlertIds else none
  else none

/-- A React effect with dependency [isOpen] runs exactly once per change of
isOpen. The list of readAlerts invocations caused by a transition of isOpen
from oldOpen to newOpen: one invocation per effect run that reaches the
readAlerts call. -/
def isOpenTransitionCalls (oldOpen newOpen : Bool) (alerts : List Alert) :
    List (List Nat) :=
  if oldOpen ≠ newOpen then
    match isOpenEffectCall newOpen alerts with
    | some ids => [ids]
    | none => []
  else []

/-- One mutation of the alerts list by the two feed-growing operations:
a live push (subscription handler) or a loadMore with a given settled
response. -/
inductive FeedOp where
  | push (a : Alert)
  | fetch (response : Option AlertsResponse)
deriving Repr

/-- Apply one feed operation to the state. -/
def applyOp (s : FeedState) : FeedOp → FeedState
  | .push a => recordIncoming a s
  | .fetch r => loadMore r s

/-- Apply a sequence of feed operations left to right. -/
def applyOps (s : FeedState) (ops : List FeedOp) : FeedState :=
  ops.foldl applyOp s

/-- The alert ids an operation inserts into the list: a push inserts its
alert's id; a fetch inserts the ids of the returned content when the
response settles with resultCode "200", and nothing otherwise. -/
def opDeliveredIds : FeedOp → List Nat
  | .push a => [a.id]
  | .fetch none => []
  | .fetch (some resp) =>
      if resp.resultCode = "200" then resp.content.map (fun a => a.id) else []

/-- Ids of the alerts currently in the store. -/
def storeIds (s : FeedState) : List Nat :=
  s.alerts.map (fun a => a.id)

/-! ## Shared concrete inputs for counterexamples and witnesses -/

/-- A plain unread alert with id 1. -/
def alert1 : Alert := { id := 1, isRead := false, processedAction := none, payload := "" }

/-- A plain unread alert with id 2. -/
def alert2 : Alert := { id := 2, isRead := false, processedAction := none, payload := "" }

/-- An already-read alert with id 7, as a push payload may carry it. -/
def alertRead7 : Alert := { id := 7, isRead := true, processedAction := none, payload := "" }

/-- The empty initial feed state (component mount: alerts [], hasMore true,
page 0). -/
def sEmpty : FeedState := { alerts := [], hasMore := true, page := 0, unreadAlerts := [] }

/-- A state holding alert 1, with hasMore true. -/
def sOne : FeedState := { alerts := [alert1], hasMore := true, page := 0, unreadAlerts := [1] }

/-- A state with an exhausted feed: hasMore false. -/
def sNoMore : FeedState := { alerts := [], hasMore := false, page := 0, unreadAlerts := [] }

/-- A successful one-element page response. -/
def respOne : AlertsResponse := { resultCode := "200", content := [alert2] }

/-- A successful full page of 10 alerts (ids 101..110). -/
def respTen : AlertsResponse :=
  { resultCode := "200",
    content := (List.range 10).map
      (fun i => { id := 101 + i, isRead := false, processedAction := none, payload := "" }) }

/-! ## C1: duplicate behaviour of recordIncoming and loadMore -/

/-- One feed operation permutes the stored ids to the previous ids followed
by the delivered ids: a push prepends one id, a successful fetch appends
the returned ids, anything else changes nothing. -/
lemma storeIds_applyOp_perm (s : FeedState) (op : FeedOp) :
    (storeIds (applyOp s op)).Perm (storeIds s ++ opDeliveredIds op) := by
  cases op with
  | push a =>
    simpa [applyOp, recordIncoming, storeIds, opDeliveredIds] using
      (@List.perm_append_comm Nat [a.id] (s.alerts.map (fun a => a.id)))
  | fetch r =>
    cases r with
    | none => simp [applyOp, loadMore, storeIds, opDeliveredIds]
    | some data =>
      by_cases h : data.resultCode = "200"
      · simp only [applyOp, loadMore, opDeliveredIds, h, if_pos]
        split <;> simp [storeIds]
      · simp [applyOp, loadMore, storeIds, opDeliveredIds, h]

/-- A sequence of feed operations permutes the stored ids to the initial
ids followed by all delivered ids in operation order. -/
lemma storeIds_applyOps_perm (s : FeedState) (ops : List FeedOp) :
    (storeIds (applyOps s ops)).Perm
      (storeIds s ++ ops.flatMap opDeliveredIds) := by
  induction ops generalizing s with
  | nil => simp [applyOps]
  | cons op rest ih =>
    have h1 : (storeIds (applyOps s (op :: rest))).Perm
        (storeIds (applyOp s op) ++ rest.flatMap opDeliveredIds) := ih (applyOp s op)
    have h2 : (storeIds (applyOp s op) ++ rest.flatMap opDeliveredIds).Perm
        ((storeIds s ++ opDeliveredIds op) ++ rest.flatMap opDeliveredIds) :=
      (storeIds_applyOp_perm s op).append_right _
    have h3 : (storeIds s ++ opDeliveredIds op) ++ rest.flatMap opDeliveredIds =
        storeIds s ++ (op :: rest).flatMap opDeliveredIds := by
      simp [List.flatMap_cons, List.append_assoc]
    exact (h1.trans h2).trans (h3 ▸ List.Perm.refl _)

/-- C1 counterexample: re-delivering an id already present does insert a
duplicate. Starting from the duplicate-free state holding only alert 1,
a push of an alert with the same id 1 yields stored ids [1, 1]. -/
theorem C1_counterexample :
    (storeIds sOne).Nodup ∧
    storeIds (applyOps sOne [FeedOp.push alert1]) = [1, 1] ∧
    ¬ (storeIds (applyOps sOne [FeedOp.push alert1])).Nodup := by
  refine ⟨by decide, by decide, by decide⟩

/-- C1 (amended): recordIncoming and loadMore insert without any duplicate
check, so the sequence contains each id at most once exactly when the ids
already present together with all delivered ids are pairwise distinct; a
re-delivered id is inserted again. -/
theorem C1_noDup_of_fresh (s : FeedState) (ops : List FeedOp)
    (h : (storeIds s ++ ops.flatMap opDeliveredIds).Nodup) :
    (storeIds (applyOps s ops)).Nodup :=
  (storeIds_applyOps_perm s ops).nodup_iff.mpr h

/-- C1 witness: from the empty store, pushing alert 1 and fetching a page
containing alert 2 keeps the ids duplicate-free. -/
theorem C1_witness :
    (storeIds (applyOps sEmpty
      [FeedOp.push alert1, FeedOp.fetch (some respOne)])).Nodup :=
  C1_noDup_of_fresh sEmpty [FeedOp.push alert1, FeedOp.fetch (some respOne)]
    (by decide)

/-! ## C2: loadMore when hasMore is false -/

/-- C2 counterexample: with hasMore false, calling loadMore is not a no-op.
The fetch is issued (the function body is not guarded by hasMore), and on a
successful response the alerts list and the page cursor change. -/
theorem C2_counterexample :
    sNoMore.hasMore = false ∧
    loadMoreIssuesRequest sNoMore = true ∧
    loadMore (some respOne) sNoMore ≠ sNoMore ∧
    (loadMore (some respOne) sNoMore).alerts = [alert2] ∧
    (loadMore (some respOne) sNoMore).page = 1 := by
  refine ⟨rfl, rfl, by decide, by decide, by decide⟩

/-- C2 (amended): loadMore is not gated by hasMore. From a state with
hasMore false it still issues the network request for page cursor+1; the
store is unchanged only when the request throws or returns a non-200
resultCode, while a successful response appends its content and advances
the cursor exactly as from any other state. -/
theorem C2_fetch_unconditional (s : FeedState) (h : s.hasMore = false) :
    loadMoreIssuesRequest s = true ∧
    loadMore none s = s ∧
    (∀ resp : AlertsResponse, resp.resultCode ≠ "200" →
      loadMore (some resp) s = s) ∧
    (∀ resp : AlertsResponse, resp.resultCode = "200" →
      (loadMore (some resp) s).alerts = s.alerts ++ resp.content ∧
      (loadMore (some resp) s).page = s.page + 1 ∧
      (loadMore (some resp) s).hasMore = false) := by
  refine ⟨rfl, rfl, ?_, ?_⟩
  · intro resp hr
    simp [loadMore, hr]
  · intro resp hr
    simp only [loadMore, hr, if_pos]
    split <;> simp [h]

/-- C2 witness at the exhausted empty state and the one-element response. -/
theorem C2_witness :
    loadMoreIssuesRequest sNoMore = true ∧
    loadMore none sNoMore = sNoMore ∧
    (∀ resp : AlertsResponse, resp.resultCode ≠ "200" →
      loadMore (some resp) sNoMore = sNoMore) ∧
    (∀ resp : AlertsResponse, resp.resultCode = "200" →
      (loadMore (some resp) sNoMore).alerts = sNoMore.alerts ++ resp.content ∧
      (loadMore (some resp) sNoMore).page = sNoMore.page + 1 ∧
      (loadMore (some resp) sNoMore).hasMore = false) :=
  C2_fetch_unconditional sNoMore rfl

/-! ## C3: processedAction is overwritten, not first-write-wins -/

/-- An alert whose friend request was already rejected. -/
def alertRejected11 : Alert :=
  { id := 11, isRead := true, processedAction := some "거절 완료", payload := "" }

/-- A state holding only the already-rejected alert 11. -/
def sRejected : FeedState :=
  { alerts := [alertRejected11], hasMore := true, page := 0, unreadAlerts := [] }

/-- C3 counterexample: alert 11 already carries the rejected label, yet a
subsequent successful handleFriendRequest with accept replaces the stored
value with the accepted label instead of leaving it unchanged. -/
theorem C3_counterexample :
    alertRejected11.processedAction = some "거절 완료" ∧
    ((handleFriendRequest 5 11 FriendAction.accept (some true) sRejected).1.alerts.map
        (fun a => a.processedAction)) = [some "수락 완료"] ∧
    ((handleFriendRequest 5 11 FriendAction.accept (some true) sRejected).1.alerts.map
        (fun a => a.processedAction)) ≠ [some "거절 완료"] := by
  refine ⟨rfl, by decide, by decide⟩

/-- C3 (amended): setting a processed action is last-write-wins, not
first-write-wins. A successful handleFriendRequest overwrites the stored
processedAction of the entry whose id matches, whether or not it was
already set: the entry at position i with id alertId and any previously
set value ends up carrying the new action's label. -/
theorem C3_lastWriteWins (s : FeedState) (rid aid : Nat) (act : FriendAction)
    (i : Nat) (a : Alert) (hi : s.alerts[i]? = some a) (hid : a.id = aid)
    (prev : String) (hprev : a.processedAction = some prev) :
    (handleFriendRequest rid aid act (some true) s).1.alerts[i]? =
      some { a with processedAction := some (actionLabel act) } := by
  simp [handleFriendRequest, hi, hid]

/-- C3 witness: at the rejected alert 11 the accept label wins. -/
theorem C3_witness :
    (handleFriendRequest 5 11 FriendAction.accept (some true) sRejected).1.alerts[0]? =
      some { alertRejected11 with processedAction := some (actionLabel FriendAction.accept) } :=
  C3_lastWriteWins sRejected 5 11 FriendAction.accept 0 alertRejected11
    (by decide) rfl "거절 완료" rfl

/-! ## C4: push handler prepends the decoded alert as-is -/

/-- C4 counterexample: the subscription handler prepends the decoded alert
without forcing isRead to false. A push whose payload carries isRead =
true is stored at the head with isRead = true. -/
theorem C4_counterexample :
    alertRead7.isRead = true ∧
    ((recordIncoming alertRead7 sOne).alerts.head?.map (fun a => a.isRead)) =
      some true ∧
    ((recordIncoming alertRead7 sOne).alerts.head?.map (fun a => a.isRead)) ≠
      some false := by
  refine ⟨rfl, rfl, by decide⟩

/-- C4 (amended): on receipt of a durable-alert push the decoded alert is
prepended at the head exactly as decoded — its isRead flag is whatever the
payload carries, false or not — and the page cursor, the hasMore flag and
the unreadAlerts list are unchanged. -/
theorem C4_prepend_asIs (a : Alert) (s : FeedState) :
    (recordIncoming a s).alerts = a :: s.alerts ∧
    (recordIncoming a s).alerts.head? = some a ∧
    (recordIncoming a s).page = s.page ∧
    (recordIncoming a s).hasMore = s.hasMore ∧
    (recordIncoming a s).unreadAlerts = s.unreadAlerts :=
  ⟨rfl, rfl, rfl, rfl, rfl⟩

/-! ## C5: successful loadMore appends, increments, and hasMore update -/

/-- C5 counterexample: from a state with hasMore already false, a
successful fetch returning exactly 10 items leaves hasMore false, whereas
the claim requires hasMore to be set to (returned count == 10) = true. -/
theorem C5_counterexample :
    respTen.resultCode = "200" ∧
    respTen.content.length = 10 ∧
    sNoMore.hasMore = false ∧
    (loadMore (some respTen) sNoMore).hasMore = false := by
  refine ⟨rfl, by decide, rfl, by decide⟩

/-- C5 (amended): on a successful loadMore fetch (resultCode "200") the
returned alerts are appended after all existing entries preserving their
order, the page cursor increments by exactly one, and hasMore is set to
false when fewer than 10 items are returned and is left unchanged
otherwise; in particular, when hasMore was true before the call and the
page size caps the response at 10 items, the resulting hasMore is true
exactly when the returned count is 10. -/
theorem C5_success_append (s : FeedState) (resp : AlertsResponse)
    (h : resp.resultCode = "200") :
    (loadMore (some resp) s).alerts = s.alerts ++ resp.content ∧
    (loadMore (some resp) s).page = s.page + 1 ∧
    (loadMore (some resp) s).hasMore =
      (if resp.content.length < 10 then false else s.hasMore) ∧
    (s.hasMore = true → resp.content.length ≤ 10 →
      ((loadMore (some resp) s).hasMore = true ↔ resp.content.length = 10)) := by
  refine ⟨?_, ?_, ?_, ?_⟩
  · simp only [loadMore, h, if_pos]
    split <;> simp
  · simp only [loadMore, h, if_pos]
    split <;> simp
  · simp only [loadMore, h, if_pos]
    split <;> simp_all
  · intro hm hle
    simp only [loadMore, h, if_pos]
    split <;> rename_i hlt <;> simp [hm] <;> omega

/-- C5 witness: appending the full page respTen to the one-alert state. -/
theorem C5_witness :
    (loadMore (some respTen) sOne).alerts = sOne.alerts ++ respTen.content ∧
    (loadMore (some respTen) sOne).page = sOne.page + 1 ∧
    (loadMore (some respTen) sOne).hasMore =
      (if respTen.content.length < 10 then false else sOne.hasMore) ∧
    (sOne.hasMore = true → respTen.content.length ≤ 10 →
      ((loadMore (some respTen) sOne).hasMore = true ↔
        respTen.content.length = 10)) :=
  C5_success_append sOne respTen rfl

/-! ## C6: a push during a suspended loadMore is never lost -/

/-- C6 (confirmed): because both handlers use functional state updates
(setAlerts(prev => ...)), each reads the sequence at its own mutation time.
Prepending the pushed alert and appending the fetched batch therefore
commute: either interleaving yields the same state, and on a successful
fetch the result carries the pushed alert at the head and the batch at the
tail — neither update is lost. -/
theorem C6_push_fetch_commute (s : FeedState) (a : Alert)
    (r : Option AlertsResponse) :
    loadMore r (recordIncoming a s) = recordIncoming a (loadMore r s) ∧
    (∀ resp : AlertsResponse, r = some resp → resp.resultCode = "200" →
      (loadMore r (recordIncoming a s)).alerts =
        a :: (s.alerts ++ resp.content)) := by
  constructor
  · cases r with
    | none => rfl
    | some data =>
      by_cases h : data.resultCode = "200"
      · simp only [loadMore, recordIncoming, h, if_pos]
        split <;> simp
      · simp [loadMore, recordIncoming, h]
  · intro resp hr h
    subst hr
    simp only [loadMore, recordIncoming, h, if_pos]
    split <;> simp

/-- C6 witness: pushing alert 1 while fetching the one-element page from
the empty state, in either order. -/
theorem C6_witness :
    loadMore (some respOne) (recordIncoming alert1 sEmpty) =
      recordIncoming alert1 (loadMore (some respOne) sEmpty) ∧
    (∀ resp : AlertsResponse, some respOne = some resp →
      resp.resultCode = "200" →
      (loadMore (some respOne) (recordIncoming alert1 sEmpty)).alerts =
        alert1 :: (sEmpty.alerts ++ resp.content)) :=
  C6_push_fetch_commute sEmpty alert1 (some respOne)

/-! ## C7: readAlerts failure atomicity and idempotence -/

/-- The per-entry read update is idempotent: applying it twice equals
applying it once (the id is untouched, so the membership test repeats). -/
lemma applyReadStateToAlert_idem (ids : List Nat) (a : Alert) :
    applyReadStateToAlert ids (applyReadStateToAlert ids a) =
      applyReadStateToAlert ids a := by
  simp only [applyReadStateToAlert]
  split <;> simp_all

/-- C7 (confirmed): readAlerts leaves the whole state unchanged when the
request throws or returns non-ok; on success every entry whose id is among
the acknowledged ids gets isRead set to true while every other entry is
unchanged (so ids matching no entry are ignored), the acknowledged ids
disappear from the unreadAlerts list, and running the successful update a
second time changes nothing further. -/
theorem C7_readAlerts_atomic (ids : List Nat) (s : FeedState) :
    readAlerts ids none s = s ∧
    readAlerts ids (some false) s = s ∧
    (∀ i : Nat, ∀ a : Alert, s.alerts[i]? = some a →
      (readAlerts ids (some true) s).alerts[i]? =
        some (if ids.contains a.id then { a with isRead := true } else a)) ∧
    (∀ j ∈ ids, j ∉ (readAlerts ids (some true) s).unreadAlerts) ∧
    ((∀ a ∈ s.alerts, ¬ ids.contains a.id) →
      (readAlerts ids (some true) s).alerts = s.alerts) ∧
    readAlerts ids (some true) (readAlerts ids (some true) s) =
      readAlerts ids (some true) s := by
  refine ⟨rfl, rfl, ?_, ?_, ?_, ?_⟩
  · intro i a hi
    simp [readAlerts, hi, applyReadStateToAlert]
  · intro j hj hmem
    simp only [readAlerts, List.mem_filter] at hmem
    exact absurd hmem.2 (by simp [hj])
  · intro hnone
    show List.map (applyReadStateToAlert ids) s.alerts = s.alerts
    have hpt : ∀ a ∈ s.alerts, applyReadStateToAlert ids a = id a := by
      intro a ha
      have hmem : a.id ∉ ids := by simpa using hnone a ha
      simp [applyReadStateToAlert, hmem]
    rw [List.map_congr_left hpt, List.map_id]
  · simp only [readAlerts, List.map_map, List.filter_filter]
    refine congrArg₂ (fun x y => FeedState.mk x s.hasMore s.page y) ?_ ?_
    · exact List.map_congr_left (fun a _ => applyReadStateToAlert_idem ids a)
    · exact List.filter_congr (fun j _ => by
        by_cases h : ids.contains j <;> simp [h])

/-- C7 witness: acknowledging ids [1, 3] on the one-alert state. -/
theorem C7_witness :
    readAlerts [1, 3] none sOne = sOne ∧
    readAlerts [1, 3] (some false) sOne = sOne ∧
    (∀ i : Nat, ∀ a : Alert, sOne.alerts[i]? = some a →
      (readAlerts [1, 3] (some true) sOne).alerts[i]? =
        some (if List.contains [1, 3] a.id then { a with isRead := true } else a)) ∧
    (∀ j ∈ [1, 3], j ∉ (readAlerts [1, 3] (some true) sOne).unreadAlerts) ∧
    ((∀ a ∈ sOne.alerts, ¬ List.contains [1, 3] a.id) →
      (readAlerts [1, 3] (some true) sOne).alerts = sOne.alerts) ∧
    readAlerts [1, 3] (some true) (readAlerts [1, 3] (some true) sOne) =
      readAlerts [1, 3] (some true) sOne :=
  C7_readAlerts_atomic [1, 3] sOne

/-! ## C8: closing the feed acknowledges exactly the unread alerts -/

/-- C8 (confirmed): when the feed's visibility transitions from open to
closed, the effect on [isOpen] runs exactly once; it invokes readAlerts
exactly once and with precisely the ids of all currently-unread alerts
when that set is nonempty, and does not invoke readAlerts at all when
every alert is already read. -/
theorem C8_close_triggers_read (alerts : List Alert) :
    (unreadIds alerts ≠ [] →
      isOpenTransitionCalls true false alerts = [unreadIds alerts]) ∧
    (unreadIds alerts = [] →
      isOpenTransitionCalls true false alerts = []) := by
  constructor
  · intro h
    have hne : alerts ≠ [] := by
      intro heq
      exact h (by simp [unreadIds, heq])
    have hlen : alerts.length > 0 := List.length_pos.mpr hne
    have hulen : (unreadIds alerts).length > 0 := List.length_pos.mpr h
    simp [isOpenTransitionCalls, isOpenEffectCall, hlen, hulen]
  · intro h
    simp [isOpenTransitionCalls, isOpenEffectCall, h]

/-- C8 witness: with one unread alert the closing transition issues one
readAlerts call carrying its id; with that alert read, none. -/
theorem C8_witness :
    (unreadIds [alert1] ≠ [] →
      isOpenTransitionCalls true false [alert1] = [unreadIds [alert1]]) ∧
    (unreadIds [alert1] = [] →
      isOpenTransitionCalls true false [alert1] = []) :=
  C8_close_triggers_read [alert1]

/-! ## C9: handleFriendRequest success effects and failure frame -/

/-- C9 (confirmed): a failed friend-request call (thrown or non-ok) leaves
the state unchanged and dispatches nothing; on success exactly one
friendRequestProcessed event carrying the request id and the action is
dispatched, the entry whose id equals alertId gets its processedAction set
to the localized label of the action, every other entry is unchanged, and
the cursor, hasMore and unreadAlerts are untouched. -/
theorem C9_friendRequest_effects (rid aid : Nat) (act : FriendAction)
    (s : FeedState) :
    handleFriendRequest rid aid act none s = (s, []) ∧
    handleFriendRequest rid aid act (some false) s = (s, []) ∧
    (handleFriendRequest rid aid act (some true) s).2 =
      [{ requestId := rid, action := act }] ∧
    (∀ i : Nat, ∀ a : Alert, s.alerts[i]? = some a →
      (handleFriendRequest rid aid act (some true) s).1.alerts[i]? =
        some (if a.id = aid
          then { a with processedAction := some (actionLabel act) }
          else a)) ∧
    (handleFriendRequest rid aid act (some true) s).1.hasMore = s.hasMore ∧
    (handleFriendRequest rid aid act (some true) s).1.page = s.page ∧
    (handleFriendRequest rid aid act (some true) s).1.unreadAlerts =
      s.unreadAlerts := by
  refine ⟨rfl, rfl, rfl, ?_, rfl, rfl, rfl⟩
  intro i a hi
  simp only [handleFriendRequest, List.getElem?_map, hi, Option.map_some]
  split <;> simp_all

/-- C9 witness: accepting request 5 on alert 11 in the rejected state. -/
theorem C9_witness :
    handleFriendRequest 5 11 FriendAction.accept none sRejected =
      (sRejected, []) ∧
    handleFriendRequest 5 11 FriendAction.accept (some false) sRejected =
      (sRejected, []) ∧
    (handleFriendRequest 5 11 FriendAction.accept (some true) sRejected).2 =
      [{ requestId := 5, action := FriendAction.accept }] ∧
    (∀ i : Nat, ∀ a : Alert, sRejected.alerts[i]? = some a →
      (handleFriendRequest 5 11 FriendAction.accept (some true) sRejected).1.alerts[i]? =
        some (if a.id = 11
          then { a with processedAction := some (actionLabel FriendAction.accept) }
          else a)) ∧
    (handleFriendRequest 5 11 FriendAction.accept (some true) sRejected).1.hasMore =
      sRejected.hasMore ∧
    (handleFriendRequest 5 11 FriendAction.accept (some true) sRejected).1.page =
      sRejected.page ∧
    (handleFriendRequest 5 11 FriendAction.accept (some true) sRejected).1.unreadAlerts =
      sRejected.unreadAlerts :=
  C9_friendRequest_effects 5 11 FriendAction.accept sRejected

/-! ## C10: success with no matching alert still broadcasts -/

/-- C10 (confirmed): when no entry's id equals alertId, a successful
handleFriendRequest leaves the whole state unchanged (the map touches no
entry), yet the friendRequestProcessed event with the request id and the
action is still dispatched. -/
theorem C10_absent_id_frame (rid aid : Nat) (act : FriendAction)
    (s : FeedState) (h : ∀ a ∈ s.alerts, a.id ≠ aid) :
    (handleFriendRequest rid aid act (some true) s).1 = s ∧
    (handleFriendRequest rid aid act (some true) s).2 =
      [{ requestId := rid, action := act }] := by
  refine ⟨?_, rfl⟩
  have hpt : ∀ a ∈ s.alerts,
      (fun alert => if alert.id = aid
        then { alert with processedAction := some (actionLabel act) }
        else alert) a = id a := by
    intro a ha
    simp [h a ha]
  calc (handleFriendRequest rid aid act (some true) s).1
      = { s with alerts := s.alerts.map (fun alert => if alert.id = aid
          then { alert with processedAction := some (actionLabel act) }
          else alert) } := rfl
    _ = { s with alerts := s.alerts } := by rw [List.map_congr_left hpt, List.map_id]
    _ = s := rfl

/-- C10 witness: accepting request 5 aimed at absent alert id 99 in the
one-alert state changes nothing but still dispatches the event. -/
theorem C10_witness :
    (handleFriendRequest 5 99 FriendAction.accept (some true) sOne).1 = sOne ∧
    (handleFriendRequest 5 99 FriendAction.accept (some true) sOne).2 =
      [{ requestId := 5, action := FriendAction.accept }] :=
  C10_absent_id_frame 5 99 FriendAction.accept sOne (by decide)
